import Mathlib

/-!
Shallow embedding of the two request handlers of the ai-document-system
service: `process_document_fully` (app/api/workflow.py) and `get_summary`
(app/api/summaries.py), together with the document-identifier-keyed result
cache they share, and theorems settling the specification claims about them.

External collaborators (OCR, summarization, chunking, index building) are
modelled as oracles; each call may raise an exception, mirroring Python.
-/

namespace DocSys

/-- A per-page record produced by the OCR collaborator. -/
structure PageDetail where
  text : String
  page_number : Nat
deriving Repr, DecidableEq

/-- The dictionary returned by `ocr_processor.process_document`; the handler
reads `parsed_data.get("text")` and `parsed_data.get("page_details")`, each of
which may be missing (`None`). -/
structure ParsedData where
  text : Option String
  page_details : Option (List PageDetail)
deriving Repr, DecidableEq

/-- The dictionary returned by `embedder.build_index`; the handler checks
membership of the key `"error"` (`'error' in build_result`). -/
structure BuildResult where
  error : Option String
  path : Option String
deriving Repr, DecidableEq

/-- Python truthiness test `not x` for an optional string:
`None` and `""` are falsy, every other string is truthy. -/
def optStrFalsy : Option String → Bool
  | none => true
  | some s => s.isEmpty

/-- Modelled from the spec: the ProcessingResult stored in the Result Cache.
The cache `DOCUMENT_LAST_RESULT` is declared in `app/api/processing.py`,
which is not among the source files; per the spec a result holds the
extracted full text, optional per-page details, a summary string and an
index-build descriptor. The summary endpoint reads only `text`. -/
structure ProcessingResult where
  text : String
  page_details : Option (List PageDetail)
  summary : String
  index_descriptor : BuildResult
deriving Repr, DecidableEq

/-- The Result Cache: a mapping from document identifier to the most recent
processing result, modelled as an association list where the most recent
write for a key comes first. -/
abbrev Cache := List (String × ProcessingResult)

/-- Dictionary point lookup, `DOCUMENT_LAST_RESULT.get(id)`:
returns the stored result or an absent signal, never an error. -/
def cacheGet (c : Cache) (k : String) : Option ProcessingResult :=
  (c.find? fun p => p.1 == k).map fun p => p.2

/-- Modelled from the spec: `put(id, result)` inserts or overwrites and never
fails; the writer module `app/api/processing.py` is not among the source
files. The newest binding shadows any older binding of the same key. -/
def cachePut (c : Cache) (k : String) (v : ProcessingResult) : Cache :=
  (k, v) :: c

/-! ## Workflow endpoint (app/api/workflow.py) -/

/-- The JSON object returned by `process_document_fully` on success; it has
exactly these four keys. -/
structure WorkflowResponse where
  success : Bool
  filename : String
  summary : String
  faiss_index_path : String
deriving Repr, DecidableEq

/-- How a workflow invocation terminates: a success response, an
`HTTPException(status_code, detail)`, or an uncaught collaborator
exception propagating out of the handler. -/
inductive WfOutcome where
  | ok (resp : WorkflowResponse)
  | httpError (status : Nat) (detail : String)
  | exn (msg : String)
deriving Repr, DecidableEq

/-- Observable state surrounding a workflow invocation: whether the
temporary upload file exists, the Result Cache contents, and which
collaborators have been invoked. -/
structure WfState where
  tempFileExists : Bool
  cache : Cache
  summarizerCalled : Bool
  embedderCalled : Bool
deriving Repr, DecidableEq

/-- The external collaborators used by the workflow endpoint, as oracles.
Each may raise an exception (`Except.error`). `copyUpload` stands for
persisting the upload into the freshly opened temporary file. -/
structure Collabs where
  copyUpload : Except String Unit
  process_document : String → Except String ParsedData
  summarize_document : String → String → Except String String
  process_and_chunk_pages :
    String → Option (List PageDetail) → Nat → Nat → Except String (List String)
  build_index : List String → Except String BuildResult

/-- The scoped temporary location: `f"temp_{uuid.uuid4().hex}_{file.filename}"`. -/
def temp_file_path (tempUuid filename : String) : String :=
  "temp_" ++ tempUuid ++ "_" ++ filename

/-- The body of the `try:` block of `process_document_fully`: persist the
upload, OCR, empty-text check, summarize, chunk, build index, error-key
check, build the success response. `document_id` is the freshly generated
`uuid.uuid4().hex`; note the source assigns it but never uses it.
The state records the temporary file as still existing: the `finally:`
clause is applied by `process_document_fully` below. -/
def pipeline (C : Collabs) (tempUuid document_id filename : String)
    (cache0 : Cache) : WfOutcome × WfState :=
  match C.copyUpload with
  | .error e => (.exn e, ⟨true, cache0, false, false⟩)
  | .ok _ =>
    match C.process_document (temp_file_path tempUuid filename) with
    | .error e => (.exn e, ⟨true, cache0, false, false⟩)
    | .ok parsed =>
      if optStrFalsy parsed.text then
        (.httpError 400 "Failed to extract text from document.",
         ⟨true, cache0, false, false⟩)
      else
        match C.summarize_document (parsed.text.getD "") "general" with
        | .error e => (.exn e, ⟨true, cache0, true, false⟩)
        | .ok summary =>
          match C.process_and_chunk_pages filename parsed.page_details 250 50 with
          | .error e => (.exn e, ⟨true, cache0, true, true⟩)
          | .ok chunks =>
            match C.build_index chunks with
            | .error e => (.exn e, ⟨true, cache0, true, true⟩)
            | .ok build_result =>
              match build_result.error with
              | some err =>
                (.httpError 500 ("Failed to build index: " ++ err),
                 ⟨true, cache0, true, true⟩)
              | none =>
                (.ok ⟨true, filename, summary, "embeddings/document_index.faiss"⟩,
                 ⟨true, cache0, true, true⟩)

/-- `process_document_fully`: run the pipeline body, then the `finally:`
clause removes the temporary file whenever it exists, on every exit path. -/
def process_document_fully (C : Collabs) (tempUuid document_id filename : String)
    (cache0 : Cache) : WfOutcome × WfState :=
  ((pipeline C tempUuid document_id filename cache0).1,
   { (pipeline C tempUuid document_id filename cache0).2 with tempFileExists := false })

/-! ## Summary endpoint (app/api/summaries.py) -/

/-- A response of the summary endpoint: either an error payload
`{"error": msg}` or a success payload `{"summary", "word_count", "status"}`. -/
inductive SummaryResponse where
  | error (msg : String)
  | success (summary : String) (word_count : Nat) (status : String)
deriving Repr, DecidableEq

/-- Observable effects of a summary call: whether the cache was consulted
and whether the summarization collaborator was invoked. -/
structure SummaryEffects where
  cacheRead : Bool
  summarizerInvoked : Bool
deriving Repr, DecidableEq

/-- The usage-error payload of the summary endpoint. -/
def usageError : String :=
  "No text provided. Either provide 'text' parameter or ensure document is processed with 'document_id'"

/-- The not-yet-processed error payload of the summary endpoint. -/
def notProcessedMsg (did : String) : String :=
  "Document " ++ did ++
    " not processed yet. Please process the document first using POST /api/process/" ++ did

/-- The source-text resolution block of `get_summary`:
`source_text = text or ""`; when a truthy `document_id` is supplied and
`text` is falsy, look the identifier up in the cache, using the cached
text on a hit and returning the not-processed error payload on a miss.
The boolean records whether the cache was consulted. -/
def resolveSourceText (cache : Cache) (document_id text : Option String) :
    Except String String × Bool :=
  if !optStrFalsy document_id && optStrFalsy text then
    match cacheGet cache (document_id.getD "") with
    | some cached_result => (.ok cached_result.text, true)
    | none => (.error (notProcessedMsg (document_id.getD "")), true)
  else
    (.ok (text.getD ""), false)

/-- Worker for Python's `s.split()`: scan the characters, accumulating the
current token (reversed) and emitting it when a whitespace run begins. -/
def pyTokens : List Char → List Char → List String
  | [], acc => if acc.isEmpty then [] else [String.mk acc.reverse]
  | c :: cs, acc =>
    if c.isWhitespace then
      if acc.isEmpty then pyTokens cs []
      else String.mk acc.reverse :: pyTokens cs []
    else pyTokens cs (c :: acc)

/-- Python's `s.split()` with no argument: the maximal whitespace-separated
tokens of `s`, leading and trailing whitespace ignored. -/
def pySplit (s : String) : List String := pyTokens s.data []

/-- `len(s.split())`: the number of whitespace-separated tokens of `s`. -/
def pyWordCount (s : String) : Nat := (pySplit s).length

/-- `get_summary`: short-circuit when the OPENAI_API_KEY credential is falsy,
resolve the source text, reject empty resolved text, otherwise invoke the
summarization collaborator and build the success payload.
`summarize` is the summarization collaborator oracle. -/
def get_summary (summarize : String → String → String) (api_key : Option String)
    (cache : Cache) (type : String) (document_id text : Option String) :
    SummaryResponse × SummaryEffects :=
  if optStrFalsy api_key then
    (.error "Missing OPENAI_API_KEY", ⟨false, false⟩)
  else
    match resolveSourceText cache document_id text with
    | (.error msg, r) => (.error msg, ⟨r, false⟩)
    | (.ok source_text, r) =>
      if source_text.isEmpty then
        (.error usageError, ⟨r, false⟩)
      else
        (.success (summarize source_text type) (pyWordCount (summarize source_text type))
          "success", ⟨r, true⟩)

/-! ## Concrete collaborator instances used for witnesses -/

/-- Collaborators for a fully successful run: OCR extracts non-empty text,
summarization succeeds, index building reports no error. -/
def happyCollabs : Collabs where
  copyUpload := .ok ()
  process_document := fun _ => .ok ⟨some "hello world", some [⟨"hello world", 1⟩]⟩
  summarize_document := fun _ _ => .ok "a summary"
  process_and_chunk_pages := fun _ _ _ _ => .ok ["hello world"]
  build_index := fun _ => .ok ⟨none, some "embeddings/document_index.faiss"⟩

/-- Collaborators whose OCR step extracts the empty string. -/
def emptyTextCollabs : Collabs where
  copyUpload := .ok ()
  process_document := fun _ => .ok ⟨some "", some []⟩
  summarize_document := fun _ _ => .ok "a summary"
  process_and_chunk_pages := fun _ _ _ _ => .ok []
  build_index := fun _ => .ok ⟨none, some "embeddings/document_index.faiss"⟩

/-- Collaborators whose index build reports `{error: "disk full"}`. -/
def diskFullCollabs : Collabs where
  copyUpload := .ok ()
  process_document := fun _ => .ok ⟨some "hello world", some [⟨"hello world", 1⟩]⟩
  summarize_document := fun _ _ => .ok "a summary"
  process_and_chunk_pages := fun _ _ _ _ => .ok ["hello world"]
  build_index := fun _ => .ok ⟨some "disk full", none⟩

/-- A sample cached processing result. -/
def sampleResult : ProcessingResult :=
  ⟨"cached", some [⟨"cached", 1⟩], "sum", ⟨none, some "embeddings/document_index.faiss"⟩⟩

/-! ## Shared helper lemmas -/

/-- The pipeline body never modifies the Result Cache, on any path. -/
theorem pipeline_cache_eq (C : Collabs) (t d f : String) (c : Cache) :
    (pipeline C t d f c).2.cache = c := by
  unfold pipeline
  repeat' split
  all_goals rfl

/-! ## Claim theorems -/

/-- C1 counterexample: a fully successful invocation of the workflow
endpoint (OCR extracts the non-empty text "hello world", the embedding
collaborator reports no error, and the handler returns the success
response) starting from an empty Result Cache leaves the cache empty:
no entry is written for any identifier, in particular not for the freshly
generated DocumentIdentifier "d1". -/
theorem C1_counterexample :
    (process_document_fully happyCollabs "t1" "d1" "file.pdf" []).1 =
      .ok ⟨true, "file.pdf", "a summary", "embeddings/document_index.faiss"⟩ ∧
    (process_document_fully happyCollabs "t1" "d1" "file.pdf" []).2.cache = [] := by
  constructor <;> rfl

/-- C1 (amended): every invocation of the workflow endpoint — in particular
every fully successful one — leaves the Result Cache exactly as it was; no
entry for the freshly generated DocumentIdentifier is ever written. -/
theorem C1_workflow_leaves_cache_unmodified (C : Collabs) (t d f : String) (c : Cache) :
    (process_document_fully C t d f c).2.cache = c :=
  pipeline_cache_eq C t d f c

/-- C3: on every exit path of the workflow endpoint — success, an
HTTPException raised by a pipeline step, or an exception escaping a
collaborator call — the temporary upload file no longer exists when the
handler finishes. -/
theorem C3_temp_file_removed (C : Collabs) (t d f : String) (c : Cache) :
    (process_document_fully C t d f c).2.tempFileExists = false := rfl

/-- C10: the workflow endpoint's result does not depend on the generated
DocumentIdentifier at all (so the identifier appears nowhere in the
response), and every success response — for any collaborators, any file
and any build result — carries `success := true`, the original filename,
and the constant `faiss_index_path` value
"embeddings/document_index.faiss"; the `WorkflowResponse` shape limits the
response to exactly the keys success, filename, summary and
faiss_index_path. -/
theorem C10_response_shape (C : Collabs) (t d₁ d₂ f : String) (c : Cache) :
    process_document_fully C t d₁ f c = process_document_fully C t d₂ f c ∧
    ∀ resp, (process_document_fully C t d₁ f c).1 = .ok resp →
      resp.success = true ∧ resp.filename = f ∧
      resp.faiss_index_path = "embeddings/document_index.faiss" := by
  refine ⟨rfl, fun resp h => ?_⟩
  unfold process_document_fully pipeline at h
  repeat' split at h
  all_goals simp_all
  subst h
  exact ⟨rfl, rfl, rfl⟩

/-- C10 witness: the response-shape theorem applied to a concrete fully
successful invocation with two different generated identifiers. -/
theorem C10_witness :
    process_document_fully happyCollabs "t1" "a" "f.pdf" [] =
      process_document_fully happyCollabs "t1" "b" "f.pdf" [] ∧
    (true = true ∧ "f.pdf" = "f.pdf" ∧
      "embeddings/document_index.faiss" = "embeddings/document_index.faiss") :=
  ⟨(C10_response_shape happyCollabs "t1" "a" "b" "f.pdf" []).1,
   (C10_response_shape happyCollabs "t1" "a" "b" "f.pdf" []).2
     ⟨true, "f.pdf", "a summary", "embeddings/document_index.faiss"⟩ rfl⟩

/-- C4: when the upload is persisted and the OCR collaborator extracts no
text (a falsy `parsed_data.get("text")`: missing or empty), the workflow
endpoint terminates with the 400 client error "Failed to extract text from
document.", the summarization and embedding collaborators are never
invoked, the Result Cache is unmodified, and the temporary file is
removed. -/
theorem C4_empty_extraction (C : Collabs) (t d f : String) (c : Cache)
    (parsed : ParsedData)
    (hcopy : C.copyUpload = .ok ())
    (hocr : C.process_document (temp_file_path t f) = .ok parsed)
    (hft : optStrFalsy parsed.text = true) :
    process_document_fully C t d f c =
      (.httpError 400 "Failed to extract text from document.",
       ⟨false, c, false, false⟩) := by
  unfold process_document_fully pipeline
  rw [hcopy]
  simp only [hocr, hft, if_true]

/-- C4 witness: the empty-extraction behaviour at a concrete upload whose
OCR result is the empty string. -/
theorem C4_witness :
    process_document_fully emptyTextCollabs "t1" "d1" "f.pdf" [] =
      (.httpError 400 "Failed to extract text from document.",
       ⟨false, [], false, false⟩) :=
  C4_empty_extraction emptyTextCollabs "t1" "d1" "f.pdf" [] ⟨some "", some []⟩
    rfl rfl (by decide)

/-- C5: when every step up to index building succeeds but the embedding
collaborator's `build_index` result contains the key `error` with message
`err`, the workflow endpoint terminates with a 500 server error whose
detail message contains `err` (it is `"Failed to build index: " ++ err`),
and the Result Cache is unmodified — no new entry is added for the
attempt. -/
theorem C5_build_error (C : Collabs) (t d f : String) (c : Cache)
    (parsed : ParsedData) (s : String) (ch : List String) (br : BuildResult)
    (err : String)
    (hcopy : C.copyUpload = .ok ())
    (hocr : C.process_document (temp_file_path t f) = .ok parsed)
    (hft : optStrFalsy parsed.text = false)
    (hsum : C.summarize_document (parsed.text.getD "") "general" = .ok s)
    (hch : C.process_and_chunk_pages f parsed.page_details 250 50 = .ok ch)
    (hbi : C.build_index ch = .ok br)
    (herr : br.error = some err) :
    process_document_fully C t d f c =
      (.httpError 500 ("Failed to build index: " ++ err), ⟨false, c, true, true⟩) ∧
    (∃ p, "Failed to build index: " ++ err = p ++ err) := by
  refine ⟨?_, "Failed to build index: ", rfl⟩
  unfold process_document_fully pipeline
  rw [hcopy]
  simp only [hocr, hft, Bool.false_eq_true, if_false, hsum, hch, hbi, herr]

/-- C5 witness: the build-error behaviour at a concrete run whose index
build reports `{error: "disk full"}`. -/
theorem C5_witness :
    process_document_fully diskFullCollabs "t1" "d1" "f.pdf" [] =
      (.httpError 500 "Failed to build index: disk full", ⟨false, [], true, true⟩) ∧
    (∃ p, "Failed to build index: " ++ "disk full" = p ++ "disk full") := by
  have h := C5_build_error diskFullCollabs "t1" "d1" "f.pdf" []
    ⟨some "hello world", some [⟨"hello world", 1⟩]⟩ "a summary" ["hello world"]
    ⟨some "disk full", none⟩ "disk full" rfl rfl (by decide) rfl rfl rfl rfl
  exact ⟨by rw [h.1]; rfl, h.2⟩

/-- C6: whenever the OPENAI_API_KEY credential is absent (or empty), the
summary endpoint returns exactly the payload
`{"error": "Missing OPENAI_API_KEY"}`, without consulting the cache and
without invoking the summarization collaborator. -/
theorem C6_missing_credential (summarize : String → String → String)
    (api_key : Option String) (cache : Cache) (type : String)
    (document_id text : Option String)
    (hk : optStrFalsy api_key = true) :
    get_summary summarize api_key cache type document_id text =
      (.error "Missing OPENAI_API_KEY", ⟨false, false⟩) := by
  simp [get_summary, hk]

/-- C6 witness: the credential-absent behaviour at a concrete call with no
credential configured. -/
theorem C6_witness :
    get_summary (fun s _ => s) none [("d", sampleResult)] "short" (some "d") none =
      (.error "Missing OPENAI_API_KEY", ⟨false, false⟩) :=
  C6_missing_credential (fun s _ => s) none [("d", sampleResult)] "short"
    (some "d") none rfl

/-- C7: for a non-empty identifier `D` that was never written into the
Result Cache, the lookup `get` returns the absent signal `none` rather
than an error, and the summary endpoint called with `document_id = D` and
no raw text (credential present) returns the not-processed error payload
— whose message contains the substring "process the document first" —
without invoking the summarization collaborator. -/
theorem C7_unknown_identifier (summarize : String → String → String)
    (api_key : Option String) (cache : Cache) (type D : String)
    (hk : optStrFalsy api_key = false)
    (hD : D.isEmpty = false)
    (hnever : ∀ p ∈ cache, p.1 ≠ D) :
    cacheGet cache D = none ∧
    get_summary summarize api_key cache type (some D) none =
      (.error (notProcessedMsg D), ⟨true, false⟩) ∧
    (∃ p q, notProcessedMsg D = p ++ "process the document first" ++ q) := by
  have hget : cacheGet cache D = none := by
    simp only [cacheGet, Option.map_eq_none', List.find?_eq_none, beq_iff_eq]
    exact fun p hp => hnever p hp
  refine ⟨hget, ?_, ?_⟩
  · have hsd : optStrFalsy (some D) = false := by simpa [optStrFalsy] using hD
    have hn : optStrFalsy (none : Option String) = true := rfl
    simp [get_summary, resolveSourceText, hk, hsd, hn, hget]
  · refine ⟨"Document " ++ D ++ " not processed yet. Please ",
      " using POST /api/process/" ++ D, ?_⟩
    have lit :
        (" not processed yet. Please process the document first using POST /api/process/" : String) =
          " not processed yet. Please " ++
            ("process the document first" ++ " using POST /api/process/") := by decide
    rw [notProcessedMsg, lit]
    simp only [String.append_assoc]

/-- C7 witness: the unknown-identifier behaviour for the identifier "nope"
against a cache holding only an entry for "d". -/
theorem C7_witness :
    cacheGet [("d", sampleResult)] "nope" = none ∧
    get_summary (fun s _ => s) (some "k") [("d", sampleResult)] "short"
        (some "nope") none =
      (.error (notProcessedMsg "nope"), ⟨true, false⟩) ∧
    (∃ p q, notProcessedMsg "nope" = p ++ "process the document first" ++ q) :=
  C7_unknown_identifier (fun s _ => s) (some "k") [("d", sampleResult)] "short"
    "nope" rfl rfl (by decide)

/-- C8 counterexample: with the credential present, a call that supplies
the raw text parameter as the empty string together with a cached
document identifier does consult the cache and summarizes the cached text
"cached" instead of the supplied text — `text or ""` and
`if document_id and not text` treat a supplied empty string like an
absent parameter, so the supplied text is not used directly and the
identifier is not ignored. -/
theorem C8_counterexample :
    (get_summary (fun s _ => s) (some "k") [("d", sampleResult)] "short"
        (some "d") (some "")).2.cacheRead = true ∧
    (get_summary (fun s _ => s) (some "k") [("d", sampleResult)] "short"
        (some "d") (some "")).1 = .success "cached" 1 "success" := by
  constructor <;> rfl

/-- C8 (amended): for every call to the summary endpoint in which a
non-empty raw text parameter is supplied and the credential is present,
the supplied text is used directly as the source text and the cache is
not consulted, whatever document identifier is supplied; a supplied empty
text behaves like an absent text parameter, so a supplied identifier then
triggers a cache lookup. -/
theorem C8_nonempty_text_direct (summarize : String → String → String)
    (api_key : Option String) (cache : Cache) (type : String)
    (document_id : Option String) (s : String)
    (hk : optStrFalsy api_key = false)
    (hs : s.isEmpty = false) :
    get_summary summarize api_key cache type document_id (some s) =
      (.success (summarize s type) (pyWordCount (summarize s type)) "success",
       ⟨false, true⟩) := by
  have hts : optStrFalsy (some s) = false := by simpa [optStrFalsy] using hs
  simp [get_summary, resolveSourceText, hk, hts, hs]

/-- C8 witness: a non-empty supplied text is summarized directly with the
cache untouched, even though a cached identifier is also supplied. -/
theorem C8_witness :
    get_summary (fun s _ => s) (some "k") [("d", sampleResult)] "short"
        (some "d") (some "direct text") =
      (.success "direct text" 2 "success", ⟨false, true⟩) := by
  have h := C8_nonempty_text_direct (fun s _ => s) (some "k")
    [("d", sampleResult)] "short" (some "d") "direct text" rfl rfl
  rw [h]
  rfl

/-- C9: whenever the summary endpoint returns a success payload, that
payload carries exactly the summary string produced by the summarization
collaborator on some non-empty resolved source text, a word_count equal
to the number of whitespace-separated tokens of that summary, and the
status flag "success". -/
theorem C9_success_shape (summarize : String → String → String)
    (api_key : Option String) (cache : Cache) (type : String)
    (document_id text : Option String) (s : String) (wc : Nat) (st : String)
    (h : (get_summary summarize api_key cache type document_id text).1 =
      .success s wc st) :
    wc = pyWordCount s ∧ st = "success" ∧
    ∃ src, src.isEmpty = false ∧ s = summarize src type := by
  unfold get_summary at h
  repeat' split at h
  all_goals simp_all
  rename_i x source_text r hapi heq hsrc
  obtain ⟨h1, h2, h3⟩ := h
  subst h1
  subst h2
  exact ⟨rfl, source_text, hsrc, rfl⟩

/-- C9 witness: the success-shape theorem applied to a concrete successful
call with the credential present and text "Hello world". -/
theorem C9_witness :
    2 = pyWordCount "Hello world" ∧ "success" = "success" ∧
    ∃ src, src.isEmpty = false ∧ "Hello world" = (fun s (_ : String) => s) src "short" :=
  C9_success_shape (fun s _ => s) (some "k") [] "short" none (some "Hello world")
    "Hello world" 2 "success" rfl

/-- C2: after a result `R` whose extracted text is `T` is written into the
Result Cache under the non-empty identifier `D` (the write operation is
modelled from the spec, the writer module being absent from the source
files), the summary endpoint's source-text resolution for
`document_id = D` and no text parameter consults the cache and yields
exactly `T`. -/
theorem C2_round_trip (cache : Cache) (D T : String) (R : ProcessingResult)
    (hD : D.isEmpty = false) (hR : R.text = T) :
    resolveSourceText (cachePut cache D R) (some D) none = (.ok T, true) := by
  have hsd : optStrFalsy (some D) = false := by simpa [optStrFalsy] using hD
  have hget : cacheGet (cachePut cache D R) D = some R := by
    simp [cacheGet, cachePut, List.find?]
  have hn : optStrFalsy (none : Option String) = true := rfl
  simp [resolveSourceText, hsd, hn, hget, hR]

/-- C2 witness: the round trip at a concrete cache write of the text
"cached" under the identifier "d". -/
theorem C2_witness :
    resolveSourceText (cachePut [] "d" sampleResult) (some "d") none =
      (.ok "cached", true) :=
  C2_round_trip [] "d" "cached" sampleResult rfl rfl

end DocSys
